import Mathlib

/-!
Shallow embedding of the `restep` procedural macro (src/lib.rs, src/endpoint.rs).

The crate synthesizes, at compile time, a function that renders a path template
such as "/customers/{customer_id}", and splices that function into a host
construct (a free function body or an impl block).  The embedding below follows
the Rust source function by function; external collaborators (darling's
structured attribute parsing, syn's parsing of token streams, Rust's `format!`
named-substitution machinery) are modelled by their documented behaviour at the
exact boundary the source uses.
-/

namespace Restep

/-- Left brace character (code point 123), the placeholder opener. -/
def lbraceChar : Char := Char.ofNat 123

/-- Right brace character (code point 125), the placeholder closer. -/
def rbraceChar : Char := Char.ofNat 125

/-- Structured errors of darling, as used by the source: `Error::missing_field`
for a missing mandatory argument, unknown/duplicate keyed arguments, and
malformed values. -/
inductive DarlingError : Type where
  | missingField (name : String)
  | unknownField (name : String)
  | duplicateField (name : String)
  | unexpectedType (value : String)
  | unsupportedFormat (what : String)
deriving DecidableEq

/-- Modelled from the spec: darling's diagnostics rendered as user-facing text;
the spec writes the missing-template diagnostic as "missing field: endpoint". -/
def DarlingError.render : DarlingError → String
  | .missingField n => "missing field: " ++ n
  | .unknownField n => "unknown field: " ++ n
  | .duplicateField n => "duplicate field: " ++ n
  | .unexpectedType v => "unexpected type: " ++ v
  | .unsupportedFormat w => "unsupported format: " ++ w

/-- One element of `syn::AttributeArgs`: either a bare literal argument, or a
`key = "value"` meta item.  These are the two forms the macro's grammar uses. -/
inductive NestedMeta : Type where
  | lit (s : String)
  | nameValue (key value : String)
deriving DecidableEq

/-- `syn::AttributeArgs`, the ordered macro argument list. -/
abbrev AttributeArgs := List NestedMeta

/-- Rust keywords, which `syn` refuses to parse as plain identifiers. -/
def rustKeywords : List String :=
  ["as", "break", "const", "continue", "crate", "else", "enum", "extern",
   "false", "fn", "for", "if", "impl", "in", "let", "loop", "match", "mod",
   "move", "mut", "pub", "ref", "return", "self", "Self", "static", "struct",
   "super", "trait", "true", "type", "unsafe", "use", "where", "while",
   "async", "await", "dyn"]

/-- Whether a string is a syntactically valid Rust identifier (what
`syn::Ident::from_string` accepts): identifier characters, not the bare
underscore, not a keyword. -/
def isValidIdent (s : String) : Bool :=
  match s.data with
  | [] => false
  | c :: cs =>
      (c.isAlpha || c == '_') && cs.all (fun d => d.isAlphanum || d == '_')
        && s != "_" && !(rustKeywords.contains s)

/-- `syn::Ident::from_string`: `some` exactly on valid identifiers. -/
def Ident_from_string (s : String) : Option String :=
  if isValidIdent s then some s else none

/-- One step of the character loop of `extract_path_params` (endpoint.rs
lines 101-115).  State is `(result, current, is_dyn)`. -/
def scanStep (st : List String × List Char × Bool) (c : Char) :
    List String × List Char × Bool :=
  if c = lbraceChar then (st.1, st.2.1, true)
  else if c = rbraceChar then (st.1 ++ [String.mk st.2.1], [], false)
  else if st.2.2 then (st.1, st.2.1 ++ [c], st.2.2)
  else st

/-- The placeholder list computed by the loop of `extract_path_params`. -/
def extractCore (endpoint : String) : List String :=
  (endpoint.data.foldl scanStep ([], [], false)).1

/-- `extract_path_params` (endpoint.rs lines 97-117): the template scanner.
It runs the character loop and always returns `Ok`. -/
def extract_path_params (endpoint : String) : Except DarlingError (List String) :=
  .ok (extractCore endpoint)

/-- `String::from_nested_meta` as darling implements it: a bare string literal
yields the string, and a `key = "value"` meta item yields its value. -/
def from_nested_meta : NestedMeta → Except DarlingError String
  | .lit s => .ok s
  | .nameValue _ v => .ok v

/-- `parse_endpoint` (endpoint.rs lines 89-95): the first argument is the
template; its absence is `Error::missing_field("endpoint")`. -/
def parse_endpoint (args : AttributeArgs) : Except DarlingError String :=
  match args with
  | [] => .error (.missingField "endpoint")
  | a :: _ => from_nested_meta a

/-- The `EndpointArgs` configuration (endpoint.rs lines 16-22): optional
`params` type path and the generated-function name. -/
structure EndpointArgs : Type where
  params : Option String
  name : String
deriving DecidableEq

/-- `default_name` (endpoint.rs lines 24-26). -/
def default_name : String := "endpoint"

/-- Segments of a `::`-separated path, collected left to right. -/
def pathSegs : List Char → List Char → List String
  | [], acc => [String.mk acc]
  | ':' :: ':' :: rest, acc => String.mk acc :: pathSegs rest []
  | c :: rest, acc => pathSegs rest (acc ++ [c])

/-- Modelled from the spec: `params`, if present, "must resolve to a single
simple type identifier"; darling parses its string value as a type path, i.e.
a `::`-separated chain of identifiers. -/
def isValidTypePath (s : String) : Bool :=
  (pathSegs s.data []).all isValidIdent

/-- `TypePath::get_ident`: the single identifier of a bare one-segment path. -/
def getIdent (s : String) : Option String :=
  if isValidIdent s then some s else none

/-- Modelled from the spec: darling's derived `EndpointArgs::from_list` walks
the meta items in one pass, filling `params` and `name`; the leading positional
template literal is tolerated, an unrecognized key or malformed value fails
with the first structured error encountered. -/
def from_list_go : List NestedMeta → Option String → Option String →
    Except DarlingError EndpointArgs
  | [], p, n => .ok { params := p, name := n.getD default_name }
  | .lit _ :: rest, p, n => from_list_go rest p n
  | .nameValue k v :: rest, p, n =>
      if k = "params" then
        match p with
        | some _ => .error (.duplicateField "params")
        | none =>
            if isValidTypePath v then from_list_go rest (some v) n
            else .error (.unexpectedType v)
      else if k = "name" then
        match n with
        | some _ => .error (.duplicateField "name")
        | none => from_list_go rest p (some v)
      else .error (.unknownField k)

/-- `EndpointArgs::from_list` (the darling-derived entry point). -/
def EndpointArgs.from_list (items : List NestedMeta) :
    Except DarlingError EndpointArgs :=
  from_list_go items none none

/-- The synthesized function, as assembled by the `quote!` blocks of
`quote_fn_endpoint` (endpoint.rs lines 49-62): its name, the optional
parameter type, the placeholder list used both for the `let` bindings and the
named `format!` arguments, and the template used as the format string. -/
structure SynthFn : Type where
  name : String
  paramTy : Option String
  path_params : List String
  fmtString : String
deriving DecidableEq

/-- The token stream returned by `quote_fn_endpoint`: either the tokens of a
synthesized function definition, or darling error tokens (a `compile_error`
invocation produced by `write_errors`, via `unwrap_darling`). -/
inductive FnTokens : Type where
  | fnDef (f : SynthFn)
  | errTokens (e : DarlingError)
deriving DecidableEq

/-- Outcome of running a piece of the macro: a value, or a Rust panic (an
`unwrap` on an error), which aborts the whole expansion. -/
inductive Outcome (α : Type) : Type where
  | ok (val : α)
  | panicked (msg : String)
deriving DecidableEq

/-- Panic message of `Result::unwrap` on an `Err` value. -/
def unwrapErrMsg : String := "called Result::unwrap() on an Err value"

/-- Panic message of `Option::unwrap` on a `None` value. -/
def unwrapNoneMsg : String := "called Option::unwrap() on a None value"

/-- The mapped iterator of endpoint.rs lines 40-42: each placeholder is passed
through `Ident::from_string(..).unwrap()` when the iterator is consumed inside
`quote!`; the first invalid name panics. -/
def mapIdents : List String → Option (List String)
  | [] => some []
  | s :: rest =>
      match Ident_from_string s with
      | none => none
      | some i => (mapIdents rest).map (i :: ·)

/-- `quote_fn_endpoint` (endpoint.rs lines 37-64).  The `path_params` iterator
is lazy, so the placeholder identifiers are only validated in the
parameterized branch, which consumes the iterator inside `quote!`. -/
def quote_fn_endpoint (args : AttributeArgs) : Outcome FnTokens :=
  match parse_endpoint args with
  | .error e => .ok (.errTokens e)
  | .ok endpoint =>
    match extract_path_params endpoint with
    | .error e => .ok (.errTokens e)
    | .ok path_params =>
      match EndpointArgs.from_list args with
      | .error e => .ok (.errTokens e)
      | .ok eargs =>
        match Ident_from_string eargs.name with
        | none => .panicked unwrapErrMsg
        | some fn_name =>
          match eargs.params with
          | some params =>
            match getIdent params with
            | none => .panicked unwrapNoneMsg
            | some params_ty =>
              match mapIdents path_params with
              | none => .panicked unwrapErrMsg
              | some idents =>
                  .ok (.fnDef { name := fn_name, paramTy := some params_ty,
                                path_params := idents, fmtString := endpoint })
          | none =>
              .ok (.fnDef { name := fn_name, paramTy := none,
                            path_params := [], fmtString := endpoint })

/-- A statement of a host function body: either a pre-existing statement of
the user's code (kept opaque), the spliced synthesized function, or a spliced
`compile_error` invocation parsed from darling error tokens. -/
inductive Stmt : Type where
  | orig (code : String)
  | synthFn (f : SynthFn)
  | errCall (e : DarlingError)
deriving DecidableEq

/-- A member of a host impl block: a pre-existing item (opaque) or the spliced
synthesized method. -/
inductive ImplItem : Type where
  | orig (code : String)
  | method (f : SynthFn)
deriving DecidableEq

/-- `BodyItem` (endpoint.rs lines 32-35): the two host shapes. -/
inductive BodyItem : Type where
  | itemFn (stmts : List Stmt)
  | itemImpl (items : List ImplItem)
deriving DecidableEq

/-- `syn::parse::<Stmt>` on the synthesized tokens: both a function definition
and a braced `compile_error` invocation are valid statements. -/
def syn_parse_stmt : FnTokens → Option Stmt
  | .fnDef f => some (.synthFn f)
  | .errTokens e => some (.errCall e)

/-- `syn::parse::<ImplItemMethod>` on the synthesized tokens: a function
definition is a method, but a `compile_error` invocation is not, so parsing
darling error tokens fails. -/
def syn_parse_impl_item_method : FnTokens → Option ImplItem
  | .fnDef f => some (.method f)
  | .errTokens _ => none

/-- `embed` (endpoint.rs lines 66-87): re-parse the synthesized tokens for the
host shape (`.unwrap()` panics when that parse fails), insert them as the
first statement of a function body or append them as the last impl member. -/
def embed (fn_endpoint : FnTokens) (item : BodyItem) : Outcome BodyItem :=
  match item with
  | .itemFn stmts =>
      match syn_parse_stmt fn_endpoint with
      | none => .panicked unwrapErrMsg
      | some s => .ok (.itemFn (s :: stmts))
  | .itemImpl items =>
      match syn_parse_impl_item_method fn_endpoint with
      | none => .panicked unwrapErrMsg
      | some m => .ok (.itemImpl (items ++ [m]))

/-- `parse_attr` (endpoint.rs lines 28-30): synthesize, then embed into the
host.  A panic inside `quote_fn_endpoint` aborts before embedding. -/
def parse_attr (args : AttributeArgs) (item : BodyItem) : Outcome BodyItem :=
  match quote_fn_endpoint args with
  | .panicked m => .panicked m
  | .ok ft => embed ft item

/-- The raw host token stream of the invocation, classified by which of the
two candidate grammars accepts it; when neither does, it carries the parse
error each attempt produces. -/
inductive RawItem : Type where
  | implTokens (items : List ImplItem)
  | fnTokens (stmts : List Stmt)
  | neither (implErr fnErr : String)
deriving DecidableEq

/-- `syn::parse::<ItemImpl>` on the raw host tokens. -/
def syn_parse_item_impl : RawItem → Except String (List ImplItem)
  | .implTokens items => .ok items
  | .fnTokens _ => .error "expected impl"
  | .neither e _ => .error e

/-- `syn::parse::<ItemFn>` on the raw host tokens. -/
def syn_parse_item_fn : RawItem → Except String (List Stmt)
  | .fnTokens stmts => .ok stmts
  | .implTokens _ => .error "expected fn"
  | .neither _ e => .error e

/-- `parse_item` (lib.rs lines 133-139, via the `parses!` chain of lines
116-131): try `ItemImpl` first, then `ItemFn`, and when both fail return the
error of the last attempt. -/
def parse_item (item : RawItem) : Except String BodyItem :=
  match syn_parse_item_impl item with
  | .ok v => .ok (.itemImpl v)
  | .error _ =>
    match syn_parse_item_fn item with
    | .ok v => .ok (.itemFn v)
    | .error e => .error e

/-- The macro's overall output: the re-emitted (mutated) host, or only a
compile-error diagnostic. -/
inductive TokenOut : Type where
  | emitted (item : BodyItem)
  | compileErr (msg : String)
deriving DecidableEq

/-- `endpoint` (lib.rs lines 107-114): the `proc_macro_attribute` entry point.
A host-shape parse error is turned into a diagnostic and nothing else is
emitted; otherwise the result of `parse_attr` is emitted. -/
def endpoint (attr : AttributeArgs) (item : RawItem) : Outcome TokenOut :=
  match parse_item item with
  | .error e => .ok (.compileErr e)
  | .ok body =>
    match parse_attr attr body with
    | .panicked m => .panicked m
    | .ok out => .ok (.emitted out)

/-- Whether a list of named-argument keys is duplicate-free (rustc rejects a
duplicate named argument in `format!`). -/
def nodupKeys : List String → Bool
  | [] => true
  | x :: xs => if x ∈ xs then false else nodupKeys xs

/-- Lookup of a named `format!` argument. -/
def fmtLookup (args : List (String × String)) (k : String) : Option String :=
  (args.find? (fun p => p.1 = k)).map (·.2)

/-- Parser state of the `format!` string grammar. -/
inductive FmtMode : Type where
  | normal
  | inPlaceholder (cur : List Char)
  | afterRBrace

/-- Rust's `format!` string interpretation over the characters of the format
string: doubled braces are escapes, a placeholder must be a valid identifier
bound among the named arguments, a stray closing brace or an unterminated
placeholder is rejected (a compile error of the generated code). -/
def formatGo : List Char → List (String × String) → FmtMode → Option (List Char)
  | [], _, .normal => some []
  | [], _, .inPlaceholder _ => none
  | [], _, .afterRBrace => none
  | c :: cs, args, .normal =>
      if c = lbraceChar then formatGo cs args (.inPlaceholder [])
      else if c = rbraceChar then formatGo cs args .afterRBrace
      else (formatGo cs args .normal).map (c :: ·)
  | c :: cs, args, .afterRBrace =>
      if c = rbraceChar then (formatGo cs args .normal).map (rbraceChar :: ·)
      else none
  | c :: cs, args, .inPlaceholder cur =>
      if c = lbraceChar then
        if cur.isEmpty then (formatGo cs args .normal).map (lbraceChar :: ·)
        else none
      else if c = rbraceChar then
        if isValidIdent (String.mk cur) then
          match fmtLookup args (String.mk cur) with
          | some v => (formatGo cs args .normal).map (v.data ++ ·)
          | none => none
        else none
      else formatGo cs args (.inPlaceholder (cur ++ [c]))

/-- Rust's `format!` with named arguments: `none` when the generated
`format!` call would fail to compile (duplicate named argument, malformed
format string, unbound placeholder). -/
def rustFormat (fmt : String) (args : List (String × String)) : Option String :=
  if nodupKeys (args.map Prod.fst) then
    (formatGo fmt.data args .normal).map String.mk
  else none

/-- Semantics of the synthesized function: calling it with the parameter
record whose fields (already rendered by `Display`) are `fields`.  `none`
means the generated code itself does not compile: a `let` binding names a
missing field, or the `format!` call is rejected. -/
def runSynth (f : SynthFn) (fields : List (String × String)) : Option String :=
  match f.paramTy with
  | some _ =>
      if f.path_params.all (fun p => (fmtLookup fields p).isSome) then
        rustFormat f.fmtString
          (f.path_params.map (fun p => (p, (fmtLookup fields p).getD "")))
      else none
  | none => rustFormat f.fmtString []

/-- First-appearance deduplication, the binding order the spec describes for
placeholders ("each distinct placeholder in order of first appearance"). -/
def dedupFirstAux : List String → List String → List String
  | [], _ => []
  | x :: xs, seen =>
      if x ∈ seen then dedupFirstAux xs seen
      else x :: dedupFirstAux xs (x :: seen)

/-- Distinct placeholders, in order of first appearance. -/
def dedupFirst (l : List String) : List String := dedupFirstAux l []

/-! Helper lemmas shared by the claim theorems. -/

/-- The default function name is a valid identifier. -/
theorem ident_endpoint_eq : Ident_from_string "endpoint" = some "endpoint" := by
  decide

/-- A successful run of the lazily mapped `Ident::from_string` iterator
returns the placeholder names themselves. -/
theorem mapIdents_eq : ∀ (l r : List String), mapIdents l = some r → r = l := by
  intro l
  induction l with
  | nil =>
      intro r h
      simpa [mapIdents] using h.symm
  | cons s rest ih =>
      intro r h
      simp only [mapIdents, Ident_from_string] at h
      by_cases hs : isValidIdent s = true
      · simp only [hs, if_true, Option.map_eq_some'] at h
        obtain ⟨a, ha, hra⟩ := h
        rw [← hra, ih a ha]
      · simp [hs] at h

/-- Zero-parameter invocations always synthesize the default function: no
placeholder identifier is ever constructed, because the mapped iterator is
never consumed in that branch. -/
theorem quote_lit_only (t : String) :
    quote_fn_endpoint [.lit t] = .ok (.fnDef ⟨"endpoint", none, [], t⟩) := by
  simp [quote_fn_endpoint, parse_endpoint, from_nested_meta, extract_path_params,
        EndpointArgs.from_list, from_list_go, default_name, ident_endpoint_eq]

/-- Inversion for a successful parameterized synthesis: the generated function
carries the default name, the parameter type, every scanned placeholder
occurrence, and the template as its format string. -/
theorem quote_params_fnDef (t ty : String) (f : SynthFn)
    (h : quote_fn_endpoint [.lit t, .nameValue "params" ty] = .ok (.fnDef f)) :
    f = ⟨"endpoint", some ty, extractCore t, t⟩ := by
  simp only [quote_fn_endpoint, parse_endpoint, from_nested_meta,
             extract_path_params, EndpointArgs.from_list, from_list_go,
             reduceIte] at h
  by_cases htp : isValidTypePath ty = true
  · simp only [htp, if_true, Option.getD_none, default_name,
               ident_endpoint_eq, getIdent] at h
    by_cases hid : isValidIdent ty = true
    · simp only [hid, if_true] at h
      cases hmi : mapIdents (extractCore t) with
      | none => rw [hmi] at h; exact absurd h (by simp)
      | some idents =>
          rw [hmi] at h
          have hie := mapIdents_eq _ _ hmi
          simp only [Outcome.ok.injEq, FnTokens.fnDef.injEq] at h
          rw [← h, hie]
    · simp [hid] at h
  · simp [htp] at h

/-- Characters other than braces pass through the `format!` grammar verbatim. -/
theorem format_no_braces : ∀ (cs : List Char) (args : List (String × String)),
    (∀ c ∈ cs, c ≠ lbraceChar ∧ c ≠ rbraceChar) →
    formatGo cs args .normal = some cs := by
  intro cs
  induction cs with
  | nil => intro args _; rfl
  | cons c cs ih =>
      intro args h
      have hc := h c (List.mem_cons_self c cs)
      simp only [formatGo, if_neg hc.1, if_neg hc.2,
                 ih args (fun d hd => h d (List.mem_cons_of_mem c hd))]
      rfl

/-- The scanner step keeps the result list unchanged on every character other
than a closing brace. -/
theorem scanStep_fst_ne (st : List String × List Char × Bool) (c : Char)
    (hc : ¬c = rbraceChar) : (scanStep st c).1 = st.1 := by
  simp only [scanStep, hc, if_false]
  split_ifs <;> rfl

/-- The scanner step pushes exactly one entry on a closing brace. -/
theorem scanStep_fst_rbrace (st : List String × List Char × Bool) :
    (scanStep st rbraceChar).1 = st.1 ++ [String.mk st.2.1] := by
  have hlr : ¬rbraceChar = lbraceChar := by decide
  simp [scanStep, hlr]

/-- A stretch of input without a closing brace adds nothing to the scanner's
result list. -/
theorem scan_keeps_result : ∀ (cs : List Char) (st : List String × List Char × Bool),
    rbraceChar ∉ cs → (List.foldl scanStep st cs).1 = st.1 := by
  intro cs
  induction cs with
  | nil => intro st _; rfl
  | cons c cs ih =>
      intro st hc
      rw [List.foldl_cons, ih _ (fun hm => hc (List.mem_cons_of_mem c hm))]
      exact scanStep_fst_ne st c (fun he => hc (he ▸ List.mem_cons_self c cs))

/-- The scanner pushes exactly one entry per closing brace. -/
theorem scan_length : ∀ (cs : List Char) (st : List String × List Char × Bool),
    ((List.foldl scanStep st cs).1).length = st.1.length + cs.count rbraceChar := by
  intro cs
  induction cs with
  | nil => intro st; simp
  | cons c cs ih =>
      intro st
      rw [List.foldl_cons, ih]
      by_cases hc : c = rbraceChar
      · subst hc
        rw [scanStep_fst_rbrace]
        simp [List.count_cons]
        try omega
      · rw [scanStep_fst_ne st c hc]
        have hc' : ¬rbraceChar = c := fun he => hc he.symm
        simp [List.count_cons, hc']

/-- First-appearance deduplication is the identity on duplicate-free lists. -/
theorem dedupFirstAux_self : ∀ (l seen : List String), nodupKeys l = true →
    (∀ x ∈ l, x ∉ seen) → dedupFirstAux l seen = l := by
  intro l
  induction l with
  | nil => intro seen _ _; rfl
  | cons x xs ih =>
      intro seen h hseen
      by_cases hx : x ∈ xs
      · simp [nodupKeys, hx] at h
      · simp only [nodupKeys, hx, if_false] at h
        have hxs : x ∉ seen := hseen x (List.mem_cons_self x xs)
        simp only [dedupFirstAux, hxs, if_false]
        rw [ih (x :: seen) h]
        intro y hy
        simp only [List.mem_cons, not_or]
        exact ⟨fun he => hx (he ▸ hy), hseen y (List.mem_cons_of_mem x hy)⟩

/-- Restatement of `dedupFirstAux_self` at the empty seen-set. -/
theorem dedupFirst_self (l : List String) (h : nodupKeys l = true) :
    dedupFirst l = l :=
  dedupFirstAux_self l [] h (fun _ _ => List.not_mem_nil _)

/-! Claim theorems. -/

/-- Claim C1 (amended): in parameterized mode the synthesized function has
signature taking a reference to the parameter type and returning String, but
it binds each placeholder OCCURRENCE in order of appearance (not each distinct
placeholder), so the named-substitution formatting of the template is returned
exactly when the scanned placeholders are pairwise distinct and are fields of
the record; in particular "/customers/\x7bcustomer_id\x7d" with field
customer_id rendered "1" yields "/customers/1". -/
theorem claim1_param_mode :
    (∀ (t ty : String) (f : SynthFn),
        quote_fn_endpoint [.lit t, .nameValue "params" ty] = .ok (.fnDef f) →
        f = ⟨"endpoint", some ty, extractCore t, t⟩)
    ∧ (∀ (t ty : String) (f : SynthFn) (fields : List (String × String)),
        quote_fn_endpoint [.lit t, .nameValue "params" ty] = .ok (.fnDef f) →
        nodupKeys (extractCore t) = true →
        (∀ p ∈ extractCore t, (fmtLookup fields p).isSome = true) →
        runSynth f fields =
          rustFormat t ((dedupFirst (extractCore t)).map
            (fun p => (p, (fmtLookup fields p).getD ""))))
    ∧ quote_fn_endpoint [.lit "/customers/{customer_id}", .nameValue "params" "P"] =
        .ok (.fnDef ⟨"endpoint", some "P", ["customer_id"], "/customers/{customer_id}"⟩)
    ∧ runSynth ⟨"endpoint", some "P", ["customer_id"], "/customers/{customer_id}"⟩
        [("customer_id", "1")] = some "/customers/1" := by
  refine ⟨quote_params_fnDef, ?_, by decide, by decide⟩
  intro t ty f fields h hnodup hfields
  have hf := quote_params_fnDef t ty f h
  subst hf
  simp only [runSynth]
  rw [if_pos (List.all_eq_true.mpr hfields), dedupFirst_self _ hnodup]

/-- Claim C1 counterexample: for the template "/\x7bid\x7d/\x7bid\x7d" the code
binds the placeholder occurrence `id` twice (not once, as binding each
distinct placeholder would), and the duplicated named argument makes the
generated `format!` call a compile error, so the call returns no string — while
the named-substitution formatting of the template with `id = 1` is "/1/1". -/
theorem claim1_counterexample :
    quote_fn_endpoint [.lit "/{id}/{id}", .nameValue "params" "P"] =
      .ok (.fnDef ⟨"endpoint", some "P", ["id", "id"], "/{id}/{id}"⟩)
    ∧ dedupFirst (extractCore "/{id}/{id}") = ["id"]
    ∧ runSynth ⟨"endpoint", some "P", ["id", "id"], "/{id}/{id}"⟩ [("id", "1")] = none
    ∧ rustFormat "/{id}/{id}" [("id", "1")] = some "/1/1" := by
  decide

/-- Claim C1 witness: the amended theorem applied at the template
"/customers/\x7bcustomer_id\x7d" with parameter type P and field
customer_id = "1". -/
theorem claim1_param_mode_witness :
    runSynth ⟨"endpoint", some "P", ["customer_id"], "/customers/{customer_id}"⟩
        [("customer_id", "1")] =
      rustFormat "/customers/{customer_id}"
        ((dedupFirst (extractCore "/customers/{customer_id}")).map
          (fun p => (p, (fmtLookup [("customer_id", "1")] p).getD ""))) :=
  claim1_param_mode.2.1 "/customers/{customer_id}" "P"
    ⟨"endpoint", some "P", ["customer_id"], "/customers/{customer_id}"⟩
    [("customer_id", "1")] (by decide) (by decide) (by decide)

/-- Claim C2: the template scanner always succeeds, returning the ordered
placeholder list; the spec's examples hold, the empty placeholder of
"/a/\x7b\x7d/b" is preserved as an entry, and a dangling opening brace (any
suffix without a closing brace) contributes no entry. -/
theorem claim2_scanner_total :
    (∀ s : String, ∃ l, extract_path_params s = .ok l)
    ∧ extract_path_params "/static" = .ok []
    ∧ extract_path_params "/static/{id}" = .ok ["id"]
    ∧ extract_path_params "/static/{id}/{second}" = .ok ["id", "second"]
    ∧ extract_path_params "/a/\x7b\x7d/b" = .ok [""]
    ∧ (∀ s suffix : String, rbraceChar ∉ suffix.data →
        extract_path_params (s ++ suffix) = extract_path_params s) := by
  refine ⟨fun s => ⟨extractCore s, rfl⟩, rfl, rfl, rfl, rfl, ?_⟩
  intro s suffix hs
  have hdata : (s ++ suffix).data = s.data ++ suffix.data := by
    cases s; cases suffix; rfl
  simp only [extract_path_params, extractCore, hdata, List.foldl_append]
  rw [scan_keeps_result suffix.data _ hs]

/-- Claim C2 witness: the dangling-brace conjunct applied to the concrete
unterminated template "/a/\x7bunterm". -/
theorem claim2_scanner_total_witness :
    extract_path_params ("/a/" ++ "\x7bunterm") = extract_path_params "/a/" :=
  claim2_scanner_total.2.2.2.2.2 "/a/" "\x7bunterm" (by decide)

/-- Claim C3: splicing the synthesized function into a free-function host
makes it the first statement with every original statement after it in order,
and into an impl host makes it the last member with every original member
before it in order; nothing else in the host changes. -/
theorem claim3_splice_frame :
    (∀ (f : SynthFn) (stmts : List Stmt),
        embed (.fnDef f) (.itemFn stmts) = .ok (.itemFn (.synthFn f :: stmts)))
    ∧ (∀ (f : SynthFn) (items : List ImplItem),
        embed (.fnDef f) (.itemImpl items) = .ok (.itemImpl (items ++ [.method f]))) :=
  ⟨fun _ _ => rfl, fun _ _ => rfl⟩

/-- Claim C4: host-shape disambiguation accepts an impl parse first, then a
function parse, and when both fail it propagates the error of the
last-attempted shape (the function parse) as the sole emitted diagnostic. -/
theorem claim4_disambiguation :
    (∀ items, parse_item (.implTokens items) = .ok (.itemImpl items))
    ∧ (∀ stmts, parse_item (.fnTokens stmts) = .ok (.itemFn stmts))
    ∧ (∀ implErr fnErr, parse_item (.neither implErr fnErr) = .error fnErr)
    ∧ (∀ (attr : AttributeArgs) implErr fnErr,
        endpoint attr (.neither implErr fnErr) = .ok (.compileErr fnErr)) :=
  ⟨fun _ => rfl, fun _ => rfl, fun _ _ => rfl, fun _ _ _ => rfl⟩

/-- Claim C5 (code behaviour at the failing input): on a configuration error
(here: missing template), the darling error tokens are not emitted alone but
are handed to `embed`; for a free-function host the entire host is re-emitted
with the `compile_error` invocation spliced in as its first statement, and for
an impl host the re-parse of the error tokens as a method panics. -/
theorem claim5_config_error_output :
    parse_attr [] (.itemFn [.orig "let x = 1"]) =
      .ok (.itemFn [.errCall (.missingField "endpoint"), .orig "let x = 1"])
    ∧ parse_attr [] (.itemImpl [.orig "fn m()"]) = .panicked unwrapErrMsg :=
  ⟨rfl, rfl⟩

/-- Claim C6 (amended): in zero-parameter mode the synthesized function takes
no arguments for every template, and for any template containing no brace
character it returns exactly the template string unchanged. -/
theorem claim6_zero_param_mode :
    (∀ t : String,
        quote_fn_endpoint [.lit t] = .ok (.fnDef ⟨"endpoint", none, [], t⟩))
    ∧ (∀ t : String, lbraceChar ∉ t.data → rbraceChar ∉ t.data →
        runSynth ⟨"endpoint", none, [], t⟩ [] = some t) := by
  refine ⟨quote_lit_only, ?_⟩
  intro t hl hr
  simp only [runSynth, rustFormat, List.map_nil, nodupKeys, reduceIte]
  rw [format_no_braces t.data []
    (fun c hc => ⟨fun he => hl (he ▸ hc), fun he => hr (he ▸ hc)⟩)]
  rfl

/-- Claim C6 counterexample: the templates "/a\x7db" (a stray closing brace)
and "/a\x7bb" (a stray opening brace) contain no complete placeholder, yet in
zero-parameter mode the generated function does not return them unchanged: its
`format!` call does not compile, so no string is returned. -/
theorem claim6_counterexample :
    (lbraceChar ∉ "/a\x7db".data
      ∧ quote_fn_endpoint [.lit "/a\x7db"] =
          .ok (.fnDef ⟨"endpoint", none, [], "/a\x7db"⟩)
      ∧ runSynth ⟨"endpoint", none, [], "/a\x7db"⟩ [] = none)
    ∧ (rbraceChar ∉ "/a\x7bb".data
      ∧ quote_fn_endpoint [.lit "/a\x7bb"] =
          .ok (.fnDef ⟨"endpoint", none, [], "/a\x7bb"⟩)
      ∧ runSynth ⟨"endpoint", none, [], "/a\x7bb"⟩ [] = none) := by
  decide

/-- Claim C6 witness: the amended theorem applied to the brace-free template
"/customers". -/
theorem claim6_zero_param_mode_witness :
    runSynth ⟨"endpoint", none, [], "/customers"⟩ [] = some "/customers" :=
  claim6_zero_param_mode.2 "/customers" (by decide) (by decide)

/-- Claim C7: whenever a function is generated, its name is exactly the value
of the `name` keyed argument when supplied, and exactly "endpoint" when the
argument is omitted; the concrete case name = "custom_fn" yields a function
named custom_fn. -/
theorem claim7_generated_name :
    (∀ (t nm : String) (f : SynthFn),
        quote_fn_endpoint [.lit t, .nameValue "name" nm] = .ok (.fnDef f) →
        f.name = nm)
    ∧ (∀ (t : String) (f : SynthFn),
        quote_fn_endpoint [.lit t] = .ok (.fnDef f) → f.name = "endpoint")
    ∧ quote_fn_endpoint [.lit "/customers", .nameValue "name" "custom_fn"] =
        .ok (.fnDef ⟨"custom_fn", none, [], "/customers"⟩) := by
  refine ⟨?_, ?_, by decide⟩
  · intro t nm f h
    simp only [quote_fn_endpoint, parse_endpoint, from_nested_meta,
               extract_path_params, EndpointArgs.from_list, from_list_go,
               eq_false (show ¬("name" = "params") from by decide), if_false,
               reduceIte, Option.getD_some, Ident_from_string] at h
    by_cases hnm : isValidIdent nm = true
    · simp only [hnm, eq_self_iff_true, if_true, reduceIte] at h
      simp only [Outcome.ok.injEq, FnTokens.fnDef.injEq] at h
      rw [← h]
    · simp [hnm] at h
  · intro t f h
    rw [quote_lit_only t] at h
    simp only [Outcome.ok.injEq, FnTokens.fnDef.injEq] at h
    rw [← h]

/-- Claim C7 witness: the supplied-name conjunct applied at template "/x" with
name "custom_fn". -/
theorem claim7_generated_name_witness :
    (⟨"custom_fn", none, [], "/x"⟩ : SynthFn).name = "custom_fn" :=
  claim7_generated_name.1 "/x" "custom_fn" ⟨"custom_fn", none, [], "/x"⟩ (by decide)

/-- Claim C8: with no first argument, `parse_endpoint` fails with the
missing-field error for "endpoint", `quote_fn_endpoint` turns it into the
darling error tokens instead of a configuration, and the diagnostic renders as
"missing field: endpoint". -/
theorem claim8_missing_endpoint :
    parse_endpoint [] = .error (.missingField "endpoint")
    ∧ quote_fn_endpoint [] = .ok (.errTokens (.missingField "endpoint"))
    ∧ DarlingError.render (.missingField "endpoint") = "missing field: endpoint" :=
  ⟨rfl, rfl, rfl⟩

/-- Claim C9 (code behaviour at the failing input): the template "/a/\x7b\x7d/b"
scans to the empty placeholder name, which is not a valid identifier, and in
parameterized mode `Ident::from_string(..).unwrap()` panics — an unrecoverable
abort of the expansion, not a reported diagnostic. -/
theorem claim9_malformed_placeholder_panics :
    extractCore "/a/\x7b\x7d/b" = [""]
    ∧ isValidIdent "" = false
    ∧ quote_fn_endpoint [.lit "/a/\x7b\x7d/b", .nameValue "params" "P"] =
        .panicked unwrapErrMsg := by
  decide

/-- Claim C10: the scanner emits exactly one entry per closing-brace character
of the template, so the result length equals the number of closing braces; in
particular the template "/a\x7d/b", whose closing brace has no opening brace,
contributes one empty-string entry. -/
theorem claim10_entry_per_rbrace :
    (∀ t : String, extract_path_params t = .ok (extractCore t))
    ∧ (∀ t : String, (extractCore t).length = t.data.count rbraceChar)
    ∧ extract_path_params "/a\x7d/b" = .ok [""] := by
  refine ⟨fun _ => rfl, ?_, rfl⟩
  intro t
  have h := scan_length t.data ([], [], false)
  simpa [extractCore] using h

end Restep
